import Mathlib

/-!
Verification development for the vdom-plugins repository: a shallow embedding
of the geometry utilities, the coordinate-based table detection engine
(src/src/plugins/coord-table-detector/index.ts), and the plugin orchestration
runtime (src/src/runtime.ts), together with theorems settling the spec claims.

Numbers are modelled as rationals (the source computes with JS numbers; every
quantity the claims touch is reached by exact arithmetic on small values).
JS Map and Set iteration order is insertion order; they are modelled as
association lists and duplicate-free lists preserving insertion order.
-/

namespace VdomPlugins

/-! ## Arithmetic helpers (Math.abs, Math.min, Math.max on two arguments) -/

/-- Math.abs on rationals. -/
def absQ (q : ℚ) : ℚ := if q < 0 then -q else q

/-- Math.min on two rationals. -/
def minQ (a b : ℚ) : ℚ := if a ≤ b then a else b

/-- Math.max on two rationals. -/
def maxQ (a b : ℚ) : ℚ := if a ≤ b then b else a

/-! ## Geometry (src/unnamed/part_006, the utils module) -/

/-- Axis-aligned bounding box on the normalized 0-1000 document scale
(src/src/types.ts, interface BBox). -/
structure BBox where
  x1 : ℚ
  y1 : ℚ
  x2 : ℚ
  y2 : ℚ
deriving DecidableEq, Repr

/-- Overlap ratio of box a with box b, relative to the area of a
(src/unnamed/part_006, function overlapRatio). The JS guard
intersectX1 >= intersectX2 is written intersectX2 ≤ intersectX1. -/
def overlapRatio (a b : BBox) : ℚ :=
  let intersectX1 := maxQ a.x1 b.x1
  let intersectY1 := maxQ a.y1 b.y1
  let intersectX2 := minQ a.x2 b.x2
  let intersectY2 := minQ a.y2 b.y2
  if intersectX2 ≤ intersectX1 ∨ intersectY2 ≤ intersectY1 then 0
  else
    let intersectArea := (intersectX2 - intersectX1) * (intersectY2 - intersectY1)
    let aArea := (a.x2 - a.x1) * (a.y2 - a.y1)
    if 0 < aArea then intersectArea / aArea else 0

/-! ## Spatial table detection engine
(src/src/plugins/coord-table-detector/index.ts) -/

/-- A geometric block prepared for clustering
(coord-table-detector/types.ts, interface ClusterBlock). -/
structure ClusterBlock where
  id : String
  bbox : BBox
  xCenter : ℚ
  yCenter : ℚ
  text : Option String
deriving DecidableEq, Repr

/-- A row cluster (coord-table-detector/types.ts, interface RowCluster). -/
structure RowCluster where
  yCenter : ℚ
  blocks : List ClusterBlock
deriving DecidableEq, Repr

/-- Insert into a list that is sorted ascending by key, before the first
element with a larger-or-equal key. Used to model the ES2019+ stable
Array.prototype.sort with a numeric key comparator. -/
def insertByKey {α : Type} (key : α → ℚ) (x : α) : List α → List α
  | [] => [x]
  | y :: ys => if key x ≤ key y then x :: y :: ys else y :: insertByKey key x ys

/-- Stable ascending sort by a numeric key, modelling
array.sort((a, b) => key(a) - key(b)). Stable insertion sort produces the
same list as any stable ascending sort. -/
def sortByKey {α : Type} (key : α → ℚ) (l : List α) : List α :=
  l.foldr (insertByKey key) []

/-- Arithmetic mean of the y-centers of a list of blocks: the expression
currentRow.blocks.reduce((sum, b) => sum + b.yCenter, 0) / currentRow.blocks.length
from clusterIntoRows. -/
def yCenterMean (blocks : List ClusterBlock) : ℚ :=
  (blocks.map (fun b => b.yCenter)).sum / (blocks.length : ℚ)

/-- Loop body of clusterIntoRows (index.ts lines 159-183): the current cluster
accumulates each block whose y-center is within tolerance of the cluster's
running mean, otherwise the current cluster is flushed (with its yCenter
updated to the mean) and a new cluster starts at the block. -/
def clusterIntoRowsAux (tolerance : ℚ) : List ClusterBlock → RowCluster → List RowCluster
  | [], current => [{ yCenter := yCenterMean current.blocks, blocks := current.blocks }]
  | b :: rest, current =>
    let rowYCenter := yCenterMean current.blocks
    if absQ (b.yCenter - rowYCenter) ≤ tolerance then
      clusterIntoRowsAux tolerance rest
        { yCenter := current.yCenter, blocks := current.blocks ++ [b] }
    else
      { yCenter := rowYCenter, blocks := current.blocks } ::
        clusterIntoRowsAux tolerance rest { yCenter := b.yCenter, blocks := [b] }

/-- Cluster blocks into rows by y-coordinate proximity
(index.ts, function clusterIntoRows). -/
def clusterIntoRows (blocks : List ClusterBlock) (tolerance : ℚ) : List RowCluster :=
  match sortByKey (fun b => b.yCenter) blocks with
  | [] => []
  | b :: rest => clusterIntoRowsAux tolerance rest { yCenter := b.yCenter, blocks := [b] }

/-- A column cluster built during detectColumns (index.ts line 211):
a running x-center and the Set of row indices that contributed, modelled as a
duplicate-free list in insertion order. -/
structure ColumnCluster where
  xCenter : ℚ
  rowSet : List Nat
deriving DecidableEq, Repr

/-- JS Set.add: append if absent. -/
def setAdd (s : List Nat) (i : Nat) : List Nat :=
  if i ∈ s then s else s ++ [i]

/-- The inner for-loop of detectColumns (index.ts lines 216-226): find the
first existing cluster within tolerance of x and update it in place
(adding the row index first, then recomputing the center with the updated
rowSet size); none if no cluster matches. -/
def mergeIntoClusters (tolerance : ℚ) (x : ℚ) (rowIdx : Nat) :
    List ColumnCluster → Option (List ColumnCluster)
  | [] => none
  | c :: cs =>
    if absQ (x - c.xCenter) ≤ tolerance then
      let rs := setAdd c.rowSet rowIdx
      some ({ xCenter := (c.xCenter * (rs.length : ℚ) + x) / ((rs.length : ℚ) + 1),
              rowSet := rs } :: cs)
    else
      match mergeIntoClusters tolerance x rowIdx cs with
      | some cs2 => some (c :: cs2)
      | none => none

/-- One iteration of the outer for-loop of detectColumns (index.ts lines
213-234): merge the item into the first matching cluster, or append a fresh
singleton cluster. -/
def addXCenter (tolerance : ℚ) (clusters : List ColumnCluster) (item : ℚ × Nat) :
    List ColumnCluster :=
  match mergeIntoClusters tolerance item.1 item.2 clusters with
  | some cs => cs
  | none => clusters ++ [{ xCenter := item.1, rowSet := [item.2] }]

/-- Collect all x-centers from all rows, tagged with their row index
(index.ts lines 200-205, the rows.forEach push loop, starting at index i). -/
def allXCentersFrom (i : Nat) : List RowCluster → List (ℚ × Nat)
  | [] => []
  | r :: rs => r.blocks.map (fun b => (b.xCenter, i)) ++ allXCentersFrom (i + 1) rs

/-- All x-centers of all rows with their row indices (index.ts lines 200-205). -/
def allXCenters (rows : List RowCluster) : List (ℚ × Nat) :=
  allXCentersFrom 0 rows

/-- The column clusters produced by the clustering phase of detectColumns
(index.ts lines 209-234): fold the x-items, sorted ascending by x, into
clusters. -/
def buildColumnClusters (rows : List RowCluster) (tolerance : ℚ) : List ColumnCluster :=
  (sortByKey (fun it => it.1) (allXCenters rows)).foldl (addXCenter tolerance) []

/-- Detect column x-positions from row clusters
(index.ts, function detectColumns). -/
def detectColumns (rows : List RowCluster) (tolerance : ℚ) (minRows : Nat) : List ℚ :=
  if rows.length < minRows then []
  else if (allXCenters rows).length = 0 then []
  else
    sortByKey id
      (((buildColumnClusters rows tolerance).filter
          (fun c => decide (minRows ≤ c.rowSet.length))).map (fun c => c.xCenter))

/-- One cell of a detected grid (coord-table-detector/types.ts, GridCell). -/
structure GridCell where
  blockId : Option String
  bbox : BBox
  text : Option String
  row : Nat
  col : Nat
deriving DecidableEq, Repr

/-- Math.min over a spread list (used only on nonempty lists in the source). -/
def listMinQ : List ℚ → ℚ
  | [] => 0
  | x :: xs => xs.foldl minQ x

/-- Math.max over a spread list (used only on nonempty lists in the source). -/
def listMaxQ : List ℚ → ℚ
  | [] => 0
  | x :: xs => xs.foldl maxQ x

/-- Interpolated width for an empty cell (index.ts lines 277-281). -/
def emptyCellWidth (columns : List ℚ) (colIdx : Nat) (colX : ℚ) : ℚ :=
  if 1 < columns.length then
    if colIdx < columns.length - 1 then columns.getD (colIdx + 1) 0 - colX
    else colX - columns.getD (colIdx - 1) 0
  else 100

/-- Build one grid cell (index.ts lines 259-299): bind the first block of the
row whose x-center is within tolerance of the column position, else
synthesize an empty cell with an interpolated bbox. -/
def buildGridCell (row : RowCluster) (rowIdx : Nat) (columns : List ℚ)
    (colIdx : Nat) (colX : ℚ) (tolerance : ℚ) : GridCell :=
  match row.blocks.find? (fun b => decide (absQ (b.xCenter - colX) ≤ tolerance)) with
  | some b =>
    { blockId := some b.id, bbox := b.bbox, text := b.text, row := rowIdx, col := colIdx }
  | none =>
    let colWidth := emptyCellWidth columns colIdx colX
    let minY := listMinQ (row.blocks.map (fun b => b.bbox.y1))
    let maxY := listMaxQ (row.blocks.map (fun b => b.bbox.y2))
    { blockId := none,
      bbox := { x1 := colX - colWidth / 2, y1 := minY, x2 := colX + colWidth / 2, y2 := maxY },
      text := none, row := rowIdx, col := colIdx }

/-- Inner loop of buildGrid over the columns, carrying the column index. -/
def buildGridCellsFrom (row : RowCluster) (rowIdx : Nat) (columns : List ℚ)
    (tolerance : ℚ) : Nat → List ℚ → List GridCell
  | _, [] => []
  | colIdx, colX :: rest =>
    buildGridCell row rowIdx columns colIdx colX tolerance ::
      buildGridCellsFrom row rowIdx columns tolerance (colIdx + 1) rest

/-- Outer loop of buildGrid over the rows, carrying the row index. -/
def buildGridRowsFrom (columns : List ℚ) (tolerance : ℚ) :
    Nat → List RowCluster → List (List GridCell)
  | _, [] => []
  | rowIdx, r :: rs =>
    buildGridCellsFrom r rowIdx columns tolerance 0 columns ::
      buildGridRowsFrom columns tolerance (rowIdx + 1) rs

/-- Build the grid structure from rows and detected columns
(index.ts, function buildGrid). -/
def buildGrid (rows : List RowCluster) (columns : List ℚ) (tolerance : ℚ) :
    List (List GridCell) :=
  buildGridRowsFrom columns tolerance 0 rows

/-- Arithmetic mean of a list of rationals (reduce-sum divided by length). -/
def meanQ (l : List ℚ) : ℚ := l.sum / (l.length : ℚ)

/-- Population variance of a list with given mean, as computed in
calculateConfidence via Math.pow(x - avg, 2). -/
def varianceQ (l : List ℚ) (m : ℚ) : ℚ :=
  (l.map (fun x => (x - m) * (x - m))).sum / (l.length : ℚ)

/-- Mean height of the non-empty cells of one grid row, 0 when the row has no
filled cell (index.ts lines 327-334). -/
def rowMeanHeight (row : List GridCell) : ℚ :=
  let heights := (row.filter (fun c => c.blockId.isSome)).map (fun c => c.bbox.y2 - c.bbox.y1)
  if heights.length = 0 then 0 else meanQ heights

/-- Confidence score of a grid (index.ts, function calculateConfidence):
0.4 times the fill ratio plus 0.3 times the row-height consistency plus
0.3 times the column-width consistency, each consistency being
1 / (1 + variance / mean) and 0 when the mean is 0; clamped to the unit
interval. The decimal weights are exact here. -/
def calculateConfidence (grid : List (List GridCell)) : ℚ :=
  match grid with
  | [] => 0
  | firstRow :: _ =>
    if firstRow.length = 0 then 0
    else
      let rowCount := grid.length
      let colCount := firstRow.length
      let filledCells := (grid.map (fun row => (row.filter (fun c => c.blockId.isSome)).length)).sum
      let fillRatio := (filledCells : ℚ) / ((rowCount : ℚ) * (colCount : ℚ))
      let rowHeights := grid.map rowMeanHeight
      let avgRowHeight := meanQ rowHeights
      let rowHeightVariance := varianceQ rowHeights avgRowHeight
      let rowHeightConsistency :=
        if 0 < avgRowHeight then 1 / (1 + rowHeightVariance / avgRowHeight) else 0
      let colWidths := (List.range colCount).filterMap (fun col =>
        let widths := ((grid.filterMap (fun row => row.get? col)).filter
          (fun c => c.blockId.isSome)).map (fun c => c.bbox.x2 - c.bbox.x1)
        if widths.length = 0 then none else some (meanQ widths))
      let avgColWidth := if colWidths.length = 0 then 0 else meanQ colWidths
      let colWidthVariance := if colWidths.length = 0 then 0 else varianceQ colWidths avgColWidth
      let colWidthConsistency :=
        if 0 < avgColWidth then 1 / (1 + colWidthVariance / avgColWidth) else 0
      let confidence := fillRatio * (4/10) + rowHeightConsistency * (3/10) +
        colWidthConsistency * (3/10)
      minQ 1 (maxQ 0 confidence)

/-- Bounding box encompassing all blocks (index.ts, computeTableBBox). -/
def computeTableBBox (blocks : List ClusterBlock) : BBox :=
  match blocks with
  | [] => { x1 := 0, y1 := 0, x2 := 0, y2 := 0 }
  | _ =>
    { x1 := listMinQ (blocks.map (fun b => b.bbox.x1)),
      y1 := listMinQ (blocks.map (fun b => b.bbox.y1)),
      x2 := listMaxQ (blocks.map (fun b => b.bbox.x2)),
      y2 := listMaxQ (blocks.map (fun b => b.bbox.y2)) }

/-- The detector configuration fields read by detectTablesOnPage
(coord-table-detector/types.ts, CoordTableDetectorConfig; the overlay and
debug fields do not influence the detection result). -/
structure DetectorConfig where
  rowTolerance : ℚ
  columnTolerance : ℚ
  minColumns : Nat
  minRows : Nat
  confidenceThreshold : ℚ
deriving DecidableEq, Repr

/-- A detected table (coord-table-detector/types.ts, DetectedTable). -/
structure DetectedTable where
  id : String
  bbox : BBox
  pageNumber : Nat
  rowCount : Nat
  columnCount : Nat
  confidence : ℚ
  blockIds : List String
  grid : List (List GridCell)
deriving DecidableEq, Repr

/-- Detect tables on a single page (index.ts, function detectTablesOnPage).
The wall-clock Date.now() used only inside the id string is passed in as
the parameter now; the log callback has no effect on the result and is
dropped. -/
def detectTablesOnPage (blocks : List ClusterBlock) (pageNumber : Nat)
    (config : DetectorConfig) (now : Nat) : List DetectedTable :=
  if blocks.length < config.minRows * config.minColumns then []
  else
    let rows := clusterIntoRows blocks config.rowTolerance
    if rows.length < config.minRows then []
    else
      let columns := detectColumns rows config.columnTolerance config.minRows
      if columns.length < config.minColumns then []
      else
        let grid := buildGrid rows columns config.columnTolerance
        let confidence := calculateConfidence grid
        if confidence < config.confidenceThreshold then []
        else
          let allBlocks := (rows.map (fun r => r.blocks)).flatten
          [{ id := "coord-table-p" ++ toString pageNumber ++ "-" ++ toString now,
             bbox := computeTableBBox allBlocks,
             pageNumber := pageNumber,
             rowCount := rows.length,
             columnCount := columns.length,
             confidence := confidence,
             blockIds := allBlocks.map (fun b => b.id),
             grid := grid }]

/-- Specification helper naming the list of singleton row clusters a list of
blocks induces; used to state what clusterIntoRows produces on vertically
scattered input. -/
def singletonRows (l : List ClusterBlock) : List RowCluster :=
  l.map (fun b => { yCenter := b.yCenter, blocks := [b] })

/-! ## Plugin orchestration runtime (src/src/runtime.ts) -/

/-- The closed set of lifecycle events (src/src/types.ts, VdomLifecycleEvent). -/
inductive LifecycleEvent where
  | loading
  | ready
  | interactive
  | complete
  | nodeAdded
  | nodeRemoved
  | nodeUpdated
  | selectionChanged
  | pageChanged
deriving DecidableEq, Repr

/-- Lookup in an association list modelling a JS Map (insertion order). -/
def lookupKey {α : Type} (m : List (String × α)) (k : String) : Option α :=
  (m.find? (fun p => decide (p.1 = k))).map (fun p => p.2)

/-- Map.set: overwrite in place if the key is present (keeping its original
insertion position), else append. -/
def mapSet {α : Type} (m : List (String × α)) (k : String) (v : α) : List (String × α) :=
  if m.any (fun p => decide (p.1 = k)) then m.map (fun p => if p.1 = k then (k, v) else p)
  else m ++ [(k, v)]

/-- Map.delete: remove the entry with the given key. -/
def removeKey {α : Type} (m : List (String × α)) (k : String) : List (String × α) :=
  m.filter (fun p => !decide (p.1 = k))

/-- The manifest fields of a registered plugin that drive dispatch
(src/src/types.ts, VdomPlugin; the handler function is kept separately in a
handler environment to break the state/code cycle of the embedding). -/
structure PluginMeta where
  runsOn : List LifecycleEvent
  dependencies : List String
deriving DecidableEq, Repr

/-- The registry state runEvent reads and handlers may mutate: the plugins
map in registration order and the enabled set in insertion order
(runtime.ts lines 17-18; the config map does not influence which plugins run
and is omitted from this dispatch model). -/
structure RegState where
  plugins : List (String × PluginMeta)
  enabled : List String
deriving DecidableEq, Repr

/-- Accumulator of getPluginsForEvent (runtime.ts lines 155-156): the ordered
run list built so far and the resolved (visited) set. -/
structure ResolveAcc where
  out : List (String × PluginMeta)
  resolved : List String
deriving DecidableEq, Repr

mutual

/-- The recursive closure resolve of getPluginsForEvent (runtime.ts lines
158-174), with explicit fuel standing for the JS call stack: a name already
resolved or not registered returns immediately; otherwise its dependencies
are resolved first, then the plugin is appended to the run list when it
subscribes to the event, and only then is the name marked resolved. Fuel
exhaustion (none) models unbounded recursion. -/
def resolveFuel (reg : List (String × PluginMeta)) (event : LifecycleEvent)
    (fuel : Nat) (name : String) (acc : ResolveAcc) : Option ResolveAcc :=
  match fuel with
  | 0 => none
  | fuel2 + 1 =>
    if name ∈ acc.resolved then some acc
    else
      match lookupKey reg name with
      | none => some acc
      | some p =>
        match resolveDepsFuel reg event fuel2 p.dependencies acc with
        | none => none
        | some acc2 =>
          let acc3 :=
            if event ∈ p.runsOn then
              { out := acc2.out ++ [(name, p)], resolved := acc2.resolved }
            else acc2
          some { out := acc3.out, resolved := acc3.resolved ++ [name] }
termination_by (fuel, 0)

/-- The for-loop over a list of names calling resolve on each (runtime.ts
lines 165-167 for dependencies, lines 176-178 for the top-level iteration
over the registered names). -/
def resolveDepsFuel (reg : List (String × PluginMeta)) (event : LifecycleEvent)
    (fuel : Nat) (names : List String) (acc : ResolveAcc) : Option ResolveAcc :=
  match names with
  | [] => some acc
  | d :: ds =>
    match resolveFuel reg event fuel d acc with
    | none => none
    | some acc2 => resolveDepsFuel reg event fuel ds acc2
termination_by (fuel, names.length + 1)

end

/-- getPluginsForEvent (runtime.ts lines 154-181): resolve every registered
name in registration order and return the ordered run list; none when the
recursion does not terminate within the given fuel. -/
def getPluginsForEventFuel (reg : List (String × PluginMeta)) (event : LifecycleEvent)
    (fuel : Nat) : Option (List (String × PluginMeta)) :=
  (resolveDepsFuel reg event fuel (reg.map (fun p => p.1)) { out := [], resolved := [] }).map
    (fun acc => acc.out)

/-- A plugin result as recorded by runEvent (src/src/types.ts, PluginResult;
the optional data and errorDetails payloads are never inspected by the
runtime and are not modelled). -/
structure PluginResult where
  success : Bool
  error : Option String
deriving DecidableEq, Repr

/-- The manager bus events runEvent publishes (src/src/types.ts,
PluginManagerEventData; the wall-clock duration payload of plugin:completed
is not modelled). -/
inductive BusEvent where
  | pluginStarted (name : String) (event : LifecycleEvent)
  | pluginCompleted (name : String) (result : PluginResult)
  | pluginError (name : String) (message : String)
deriving DecidableEq, Repr

/-- The plugin name a bus event concerns. -/
def busEventName : BusEvent → String
  | BusEvent.pluginStarted n _ => n
  | BusEvent.pluginCompleted n _ => n
  | BusEvent.pluginError n _ => n

/-- A plugin handler: given the event and the current registry state it
returns the (possibly mutated) state and either a result or a thrown error
message. Handlers are kept in an environment keyed by plugin name. -/
def HandlerFn : Type :=
  LifecycleEvent → RegState → RegState × Except String PluginResult

/-- The for-loop of runEvent (runtime.ts lines 115-149): for each plugin of
the precomputed run list, skip it unless its name is in the current (live)
enabled set; otherwise publish plugin:started, invoke the handler, and on a
normal return record the result and publish plugin:completed, while on a
thrown error record a synthesized failure result and publish plugin:error,
continuing with the remaining plugins either way. -/
def dispatchLoop (env : String → HandlerFn) (event : LifecycleEvent) :
    List (String × PluginMeta) → RegState → List (String × PluginResult) → List BusEvent →
    RegState × List (String × PluginResult) × List BusEvent
  | [], st, results, evts => (st, results, evts)
  | (name, _meta) :: rest, st, results, evts =>
    if name ∈ st.enabled then
      match (env name event st).2 with
      | Except.ok r =>
        dispatchLoop env event rest (env name event st).1 (mapSet results name r)
          (evts ++ [BusEvent.pluginStarted name event, BusEvent.pluginCompleted name r])
      | Except.error msg =>
        dispatchLoop env event rest (env name event st).1
          (mapSet results name { success := false, error := some msg })
          (evts ++ [BusEvent.pluginStarted name event, BusEvent.pluginError name msg])
    else
      dispatchLoop env event rest st results evts

/-- runEvent (runtime.ts lines 108-152): compute the run list once from the
current registry, then dispatch it starting from an empty results map and no
published events; none when dependency resolution does not terminate. -/
def runEventFuel (env : String → HandlerFn) (event : LifecycleEvent) (st : RegState)
    (fuel : Nat) : Option (RegState × List (String × PluginResult) × List BusEvent) :=
  match getPluginsForEventFuel st.plugins event fuel with
  | none => none
  | some toRun => some (dispatchLoop env event toRun st [] [])

/-! ## The unregister path (runtime.ts lines 53-64) -/

/-- Whether a declared cleanup function is synchronous or returns a promise
(src/src/types.ts: cleanup is () => void | Promise<void>). -/
inductive CleanupKind where
  | sync
  | async
deriving DecidableEq, Repr

/-- The manifest data unregister consults (name keyed externally). -/
structure ManifestInfo where
  runsOn : List LifecycleEvent
  dependencies : List String
  cleanup : Option CleanupKind
deriving DecidableEq, Repr

/-- The three maps of the manager mutated by unregister (runtime.ts lines
17-19): manifests, enabled set, per-plugin configs. -/
structure ManagerState where
  plugins : List (String × ManifestInfo)
  enabled : List String
  configs : List (String × List (String × String))
deriving DecidableEq, Repr

/-- The primitive steps the synchronous body of unregister can perform, in
program order. callCleanup is the synchronous call plugin.cleanup();
awaitCleanupSettled stands for an await of the promise an asynchronous
cleanup returns — the source method is not async and contains no await, so
the embedding of its body can only emit this step where the source awaits. -/
inductive UnregAction where
  | callCleanup (name : String) (kind : CleanupKind)
  | awaitCleanupSettled (name : String)
  | deleteManifest (name : String)
  | deleteEnabled (name : String)
  | deleteConfig (name : String)
  | emitUnregistered (name : String)
deriving DecidableEq, Repr

/-- unregister (runtime.ts lines 53-64): call cleanup if the plugin is
registered and declares one (the returned value, promise or not, is
discarded), then delete the name from the three maps and publish
plugin:unregistered; the trace lists the steps in program order. -/
def unregister (st : ManagerState) (name : String) : ManagerState × List UnregAction :=
  let cleanupActions :=
    match lookupKey st.plugins name with
    | some m =>
      match m.cleanup with
      | some kind => [UnregAction.callCleanup name kind]
      | none => []
    | none => []
  ({ plugins := removeKey st.plugins name,
     enabled := st.enabled.filter (fun n => !decide (n = name)),
     configs := removeKey st.configs name },
   cleanupActions ++
     [UnregAction.deleteManifest name, UnregAction.deleteEnabled name,
      UnregAction.deleteConfig name, UnregAction.emitUnregistered name])

/-! ## The event bus emit loop (runtime.ts lines 197-208) -/

/-- Outcome of invoking one listener during emit: it either returned or its
exception was caught (and logged) by the per-listener try/catch. -/
inductive ListenerOutcome where
  | ok
  | caught (message : String)
deriving DecidableEq, Repr

/-- emit (runtime.ts lines 197-208): invoke every listener of the event, in
registration (Set insertion) order, with the payload; a listener that throws
is caught and logged and the loop continues. The returned trace has one
outcome per listener, in invocation order; emit itself always returns. -/
def emitRun {α : Type} (data : α) : List (α → Except String Unit) → List ListenerOutcome
  | [] => []
  | h :: hs =>
    match h data with
    | Except.ok _ => ListenerOutcome.ok :: emitRun data hs
    | Except.error e => ListenerOutcome.caught e :: emitRun data hs

/-! ## The command executor -/

/-- A command result (src/src/types.ts, CommandResult; the content, format
and metadata payloads are not inspected by the claims). -/
structure CommandResult where
  success : Bool
  error : Option String
deriving DecidableEq, Repr

/-- The manager state executeCommand consults: which command ids each
registered plugin owns, and the enabled set. -/
structure CmdManagerState where
  plugins : List (String × List String)
  enabled : List String
deriving DecidableEq, Repr

/-- The command bus events of the spec (command:started, command:completed,
command:error). -/
inductive CmdBusEvent where
  | commandStarted (pluginName commandId : String)
  | commandCompleted (pluginName commandId : String) (result : CommandResult)
  | commandError (pluginName commandId : String) (message : String)
deriving DecidableEq, Repr

/-- Modelled from the spec: the implementation of executeCommand is not under
src (src/src/types.ts declares it on IPluginManager and the tests in
src/unnamed/part_001 exercise it, but runtime.ts does not contain it). Per
spec section 4.3 and the tests: fail with a not-found error if the plugin is
unregistered or does not own the command id; fail with a not-enabled error if
the plugin is found but currently disabled; otherwise publish
command:started, invoke the handler (cmdEnv, keyed by plugin and command id,
yields its outcome), and publish command:completed on success or
command:error on a thrown error while returning a normalized failure result.
The middle component of the result lists the handler invocations performed. -/
def executeCommand (st : CmdManagerState)
    (cmdEnv : String → String → Except String CommandResult)
    (pluginName commandId : String) :
    CommandResult × List (String × String) × List CmdBusEvent :=
  match lookupKey st.plugins pluginName with
  | none =>
    ({ success := false, error := some ("Plugin " ++ pluginName ++ " not found") }, [], [])
  | some cmds =>
    if commandId ∈ cmds then
      if pluginName ∈ st.enabled then
        match cmdEnv pluginName commandId with
        | Except.ok r =>
          (r, [(pluginName, commandId)],
           [CmdBusEvent.commandStarted pluginName commandId,
            CmdBusEvent.commandCompleted pluginName commandId r])
        | Except.error msg =>
          ({ success := false, error := some msg }, [(pluginName, commandId)],
           [CmdBusEvent.commandStarted pluginName commandId,
            CmdBusEvent.commandError pluginName commandId msg])
      else
        ({ success := false, error := some ("Plugin " ++ pluginName ++ " is not enabled") },
         [], [])
    else
      ({ success := false, error := some ("Command " ++ commandId ++ " not found") }, [], [])

/-! ## Concrete instances used by the claims -/

/-- Six blocks of uniform size forming a 3-row by 2-column grid: vertical
centers 10, 10, 50, 50, 90, 90 and horizontal centers 20, 80, 20, 80, 20, 80. -/
def blocksGrid32 : List ClusterBlock :=
  [{ id := "b1", bbox := { x1 := 15, y1 := 5, x2 := 25, y2 := 15 },
     xCenter := 20, yCenter := 10, text := none },
   { id := "b2", bbox := { x1 := 75, y1 := 5, x2 := 85, y2 := 15 },
     xCenter := 80, yCenter := 10, text := none },
   { id := "b3", bbox := { x1 := 15, y1 := 45, x2 := 25, y2 := 55 },
     xCenter := 20, yCenter := 50, text := none },
   { id := "b4", bbox := { x1 := 75, y1 := 45, x2 := 85, y2 := 55 },
     xCenter := 80, yCenter := 50, text := none },
   { id := "b5", bbox := { x1 := 15, y1 := 85, x2 := 25, y2 := 95 },
     xCenter := 20, yCenter := 90, text := none },
   { id := "b6", bbox := { x1 := 75, y1 := 85, x2 := 85, y2 := 95 },
     xCenter := 80, yCenter := 90, text := none }]

/-- The default detector configuration: rowTolerance 15, columnTolerance 20,
minColumns 2, minRows 2, confidenceThreshold 0.7. -/
def cfgDefault : DetectorConfig :=
  { rowTolerance := 15, columnTolerance := 20, minColumns := 2, minRows := 2,
    confidenceThreshold := 7/10 }

/-- Four uniform blocks whose vertical centers 0, 100, 200, 300 are pairwise
more than rowTolerance 15 apart, with horizontal centers alternating
between 20 and 80. -/
def blocksScatteredY : List ClusterBlock :=
  [{ id := "a1", bbox := { x1 := 15, y1 := -5, x2 := 25, y2 := 5 },
     xCenter := 20, yCenter := 0, text := none },
   { id := "a2", bbox := { x1 := 75, y1 := 95, x2 := 85, y2 := 105 },
     xCenter := 80, yCenter := 100, text := none },
   { id := "a3", bbox := { x1 := 15, y1 := 195, x2 := 25, y2 := 205 },
     xCenter := 20, yCenter := 200, text := none },
   { id := "a4", bbox := { x1 := 75, y1 := 295, x2 := 85, y2 := 305 },
     xCenter := 80, yCenter := 300, text := none }]

/-- Four blocks scattered in both axes: centers (0,0), (100,100), (200,200),
(300,300), pairwise more than both tolerances apart. -/
def blocksScatteredXY : List ClusterBlock :=
  [{ id := "s1", bbox := { x1 := -5, y1 := -5, x2 := 5, y2 := 5 },
     xCenter := 0, yCenter := 0, text := none },
   { id := "s2", bbox := { x1 := 95, y1 := 95, x2 := 105, y2 := 105 },
     xCenter := 100, yCenter := 100, text := none },
   { id := "s3", bbox := { x1 := 195, y1 := 195, x2 := 205, y2 := 205 },
     xCenter := 200, yCenter := 200, text := none },
   { id := "s4", bbox := { x1 := 295, y1 := 295, x2 := 305, y2 := 305 },
     xCenter := 300, yCenter := 300, text := none }]

/-- Two singleton rows whose blocks have horizontal centers 0 and 10, both
within columnTolerance 20 of each other. -/
def rowsTwoSingletons : List RowCluster :=
  [{ yCenter := 0,
     blocks := [{ id := "p", bbox := { x1 := -5, y1 := -5, x2 := 5, y2 := 5 },
                  xCenter := 0, yCenter := 0, text := none }] },
   { yCenter := 100,
     blocks := [{ id := "q", bbox := { x1 := 5, y1 := 95, x2 := 15, y2 := 105 },
                  xCenter := 10, yCenter := 100, text := none }] }]

/-- A plugin manifest that subscribes to ready and has no dependencies. -/
def metaReadyNoDeps : PluginMeta := { runsOn := [LifecycleEvent.ready], dependencies := [] }

/-- Manifest of plugin A of the dependency two-cycle: depends on B. -/
def metaDependsOnB : PluginMeta := { runsOn := [LifecycleEvent.ready], dependencies := ["B"] }

/-- Manifest of plugin B of the dependency two-cycle: depends on A. -/
def metaDependsOnA : PluginMeta := { runsOn := [LifecycleEvent.ready], dependencies := ["A"] }

/-- A registry whose two plugins declare a dependency cycle: A depends on B
and B depends on A. -/
def cyclicReg : List (String × PluginMeta) := [("A", metaDependsOnB), ("B", metaDependsOnA)]

/-- A registry with two independent plugins P1 and P2, both subscribed to
ready. -/
def regTwoPlugins : List (String × PluginMeta) :=
  [("P1", metaReadyNoDeps), ("P2", metaReadyNoDeps)]

/-- Registry state: P1 and P2 registered and both enabled. -/
def stTwoEnabled : RegState := { plugins := regTwoPlugins, enabled := ["P1", "P2"] }

/-- A successful plugin result. -/
def okResult : PluginResult := { success := true, error := none }

/-- Handler environment in which P1 throws Error X and every other handler
returns successfully, none of them mutating the registry. -/
def envThrowP1 : String → HandlerFn := fun name _ st =>
  if name = "P1" then (st, Except.error "X") else (st, Except.ok okResult)

/-- Handler environment in which P1 disables P2 (deleting it from the live
enabled set, as disable does) and returns successfully. -/
def envDisableP2 : String → HandlerFn := fun name _ st =>
  if name = "P1" then
    ({ plugins := st.plugins, enabled := st.enabled.filter (fun n => !decide (n = "P2")) },
     Except.ok okResult)
  else (st, Except.ok okResult)

/-- Handler environment in which P1 registers a new enabled plugin Q that
subscribes to ready. -/
def envRegisterQ : String → HandlerFn := fun name _ st =>
  if name = "P1" then
    ({ plugins := st.plugins ++ [("Q", metaReadyNoDeps)], enabled := st.enabled ++ ["Q"] },
     Except.ok okResult)
  else (st, Except.ok okResult)

/-- Manager state with one enabled plugin p that declares an asynchronous
cleanup. -/
def stAsyncCleanup : ManagerState :=
  { plugins := [("p", { runsOn := [], dependencies := [], cleanup := some CleanupKind.async })],
    enabled := ["p"], configs := [] }

/-- The empty manager state. -/
def emptyManagerState : ManagerState := { plugins := [], enabled := [], configs := [] }

/-- Command-manager state in which test-plugin owns test-cmd but is disabled. -/
def stDisabledCmd : CmdManagerState :=
  { plugins := [("test-plugin", ["test-cmd"])], enabled := [] }

/-- A command handler environment whose handlers all succeed. -/
def okCmdEnv : String → String → Except String CommandResult :=
  fun _ _ => Except.ok { success := true, error := none }

/-! ## Bridge lemmas for the arithmetic helpers -/

theorem minQ_eq_min (a b : ℚ) : minQ a b = min a b := (min_def a b).symm

theorem maxQ_eq_max (a b : ℚ) : maxQ a b = max a b := (max_def a b).symm

theorem absQ_eq_abs (q : ℚ) : absQ q = |q| := by
  unfold absQ
  rcases lt_or_le q 0 with h | h
  · rw [if_pos h, abs_of_neg h]
  · rw [if_neg (not_lt.mpr h), abs_of_nonneg h]

/-! ## Geometry: claim C10 -/

/-- Helper: overlapRatio is 0 whenever the empty-intersection guard fires. -/
theorem overlapRatio_of_guard (a b : BBox)
    (h : minQ a.x2 b.x2 ≤ maxQ a.x1 b.x1 ∨ minQ a.y2 b.y2 ≤ maxQ a.y1 b.y1) :
    overlapRatio a b = 0 := by
  simp only [overlapRatio]
  rw [if_pos h]

/-- C10 (confirmed): for all axis-aligned boxes, overlapRatio is 0 on
non-overlapping boxes, 1 when the first box (of positive area) lies fully
inside the second, 0 when either box is degenerate (no division by zero
occurs: the guard fires before the area quotient), and the ratio is relative
to the first box's area, hence asymmetric in general, witnessed by the unit
box inside the side-2 box. -/
theorem c10_overlapRatio_geometry (a b : BBox) :
    ((a.x2 ≤ b.x1 ∨ b.x2 ≤ a.x1 ∨ a.y2 ≤ b.y1 ∨ b.y2 ≤ a.y1) → overlapRatio a b = 0) ∧
    (b.x1 ≤ a.x1 → a.x2 ≤ b.x2 → b.y1 ≤ a.y1 → a.y2 ≤ b.y2 →
      a.x1 < a.x2 → a.y1 < a.y2 → overlapRatio a b = 1) ∧
    ((a.x2 ≤ a.x1 ∨ a.y2 ≤ a.y1 ∨ b.x2 ≤ b.x1 ∨ b.y2 ≤ b.y1) → overlapRatio a b = 0) ∧
    overlapRatio { x1 := 0, y1 := 0, x2 := 1, y2 := 1 } { x1 := 0, y1 := 0, x2 := 2, y2 := 2 } ≠
      overlapRatio { x1 := 0, y1 := 0, x2 := 2, y2 := 2 } { x1 := 0, y1 := 0, x2 := 1, y2 := 1 } := by
  refine ⟨?_, ?_, ?_, ?_⟩
  · intro h
    apply overlapRatio_of_guard
    rw [minQ_eq_min, minQ_eq_min, maxQ_eq_max, maxQ_eq_max]
    rcases h with h | h | h | h
    · exact Or.inl (le_trans (min_le_left _ _) (le_trans h (le_max_right _ _)))
    · exact Or.inl (le_trans (min_le_right _ _) (le_trans h (le_max_left _ _)))
    · exact Or.inr (le_trans (min_le_left _ _) (le_trans h (le_max_right _ _)))
    · exact Or.inr (le_trans (min_le_right _ _) (le_trans h (le_max_left _ _)))
  · intro hx1 hx2 hy1 hy2 hxlt hylt
    have ex1 : maxQ a.x1 b.x1 = a.x1 := by rw [maxQ_eq_max]; exact max_eq_left hx1
    have ex2 : minQ a.x2 b.x2 = a.x2 := by rw [minQ_eq_min]; exact min_eq_left hx2
    have ey1 : maxQ a.y1 b.y1 = a.y1 := by rw [maxQ_eq_max]; exact max_eq_left hy1
    have ey2 : minQ a.y2 b.y2 = a.y2 := by rw [minQ_eq_min]; exact min_eq_left hy2
    have harea : 0 < (a.x2 - a.x1) * (a.y2 - a.y1) :=
      mul_pos (sub_pos.mpr hxlt) (sub_pos.mpr hylt)
    simp only [overlapRatio, ex1, ex2, ey1, ey2]
    rw [if_neg (by push_neg; exact ⟨hxlt, hylt⟩), if_pos harea,
      div_self (ne_of_gt harea)]
  · intro h
    apply overlapRatio_of_guard
    rw [minQ_eq_min, minQ_eq_min, maxQ_eq_max, maxQ_eq_max]
    rcases h with h | h | h | h
    · exact Or.inl (le_trans (min_le_left _ _) (le_trans h (le_max_left _ _)))
    · exact Or.inr (le_trans (min_le_left _ _) (le_trans h (le_max_left _ _)))
    · exact Or.inl (le_trans (min_le_right _ _) (le_trans h (le_max_right _ _)))
    · exact Or.inr (le_trans (min_le_right _ _) (le_trans h (le_max_right _ _)))
  · with_unfolding_all decide

/-- C10 witness: the three conditional parts of the geometry claim applied at
concrete boxes: disjoint boxes, a unit box inside a side-2 box, and a
width-zero degenerate box. -/
theorem c10_overlapRatio_geometry_witness :
    overlapRatio { x1 := 0, y1 := 0, x2 := 1, y2 := 1 } { x1 := 5, y1 := 5, x2 := 6, y2 := 6 } = 0 ∧
    overlapRatio { x1 := 0, y1 := 0, x2 := 1, y2 := 1 } { x1 := 0, y1 := 0, x2 := 2, y2 := 2 } = 1 ∧
    overlapRatio { x1 := 3, y1 := 3, x2 := 3, y2 := 9 } { x1 := 0, y1 := 0, x2 := 10, y2 := 10 } = 0 :=
  ⟨(c10_overlapRatio_geometry _ _).1 (Or.inl (by norm_num)),
   (c10_overlapRatio_geometry _ _).2.1 (by norm_num) (by norm_num) (by norm_num)
     (by norm_num) (by norm_num) (by norm_num),
   (c10_overlapRatio_geometry _ _).2.2.1 (Or.inl (by norm_num))⟩

/-! ## Table detection: claims C3, C4, C5 -/

/-- C3 (confirmed): on the 6-block 3-by-2 grid with vertical centers
10, 10, 50, 50, 90, 90 (rowTolerance 15), horizontal centers
20, 80, 20, 80, 20, 80 (columnTolerance 20), minRows 2 and minColumns 2,
the detector emits exactly one table with rowCount 3 and columnCount 2, all
six grid cells bound to the six source blocks, and confidence at least 0.9
(it is exactly 1). -/
theorem c3_grid_3x2_detected :
    (detectTablesOnPage blocksGrid32 1 cfgDefault 0).length = 1 ∧
    (detectTablesOnPage blocksGrid32 1 cfgDefault 0).all (fun t =>
      t.rowCount == 3 && t.columnCount == 2 &&
      t.grid.all (fun r => r.all (fun c => c.blockId.isSome) && r.length == 2) &&
      t.grid.length == 3 &&
      (t.grid.flatten.filterMap (fun c => c.blockId) ==
        ["b1", "b2", "b3", "b4", "b5", "b6"]) &&
      (t.blockIds == ["b1", "b2", "b3", "b4", "b5", "b6"]) &&
      decide ((9/10 : ℚ) ≤ t.confidence)) := by
  with_unfolding_all decide

/-- C4 counterexample: four blocks whose vertical centers are pairwise more
than rowTolerance apart (with minRows 2 and minColumns 2) for which the
detector reports one table, not zero: the blocks become four singleton rows,
so the row count is 4, which does reach minRows, and the alternating
horizontal centers support two columns — refuting both the claimed conclusion
and its stated reason. -/
theorem c4_scattered_blocks_detects_table :
    List.Pairwise
      (fun u v : ClusterBlock => cfgDefault.rowTolerance < absQ (u.yCenter - v.yCenter))
      blocksScatteredY ∧
    blocksScatteredY.length = 4 ∧ cfgDefault.minRows = 2 ∧ cfgDefault.minColumns = 2 ∧
    (detectTablesOnPage blocksScatteredY 1 cfgDefault 0).length = 1 ∧
    (detectTablesOnPage blocksScatteredY 1 cfgDefault 0).all (fun t => t.rowCount == 4) := by
  with_unfolding_all decide

/-- C5 (code bug): on two singleton rows with x-centers 0 and 10 and
columnTolerance 20 the merge loop produces a single cluster whose xCenter is
10/3, not the incremental mean 5 of the two merged x-centers: the update
divides by the rowSet size incremented before the update instead of the
count of merged items. -/
theorem c5_column_center_not_running_mean :
    buildColumnClusters rowsTwoSingletons 20 =
      [{ xCenter := 10/3, rowSet := [0, 1] }] ∧
    (10/3 : ℚ) ≠ (0 + 10) / 2 := by
  with_unfolding_all decide

/-! ## Command executor: claim C6 -/

/-- C6 (confirmed, against the spec-modelled executeCommand): for every
plugin that is registered and owns the command id but is not in the enabled
set, executeCommand returns success false with the not-enabled error message,
no handler invocation is performed, and no bus event is published. -/
theorem c6_executeCommand_disabled_plugin (st : CmdManagerState)
    (cmdEnv : String → String → Except String CommandResult)
    (pluginName commandId : String) (cmds : List String)
    (hlook : lookupKey st.plugins pluginName = some cmds)
    (hcmd : commandId ∈ cmds)
    (hdis : pluginName ∉ st.enabled) :
    executeCommand st cmdEnv pluginName commandId =
      ({ success := false, error := some ("Plugin " ++ pluginName ++ " is not enabled") },
       [], []) := by
  simp [executeCommand, hlook, hcmd, hdis]

/-- C6 witness: the disabled test-plugin owning test-cmd yields the
not-enabled failure with no handler invocation. -/
theorem c6_executeCommand_disabled_plugin_witness :
    executeCommand stDisabledCmd okCmdEnv "test-plugin" "test-cmd" =
      ({ success := false, error := some "Plugin test-plugin is not enabled" }, [], []) :=
  c6_executeCommand_disabled_plugin stDisabledCmd okCmdEnv "test-plugin" "test-cmd"
    ["test-cmd"] rfl (by decide) (by decide)

/-! ## Unregister: claim C7 -/

/-- Helper: lookup skips a head entry with a different key. -/
theorem lookupKey_cons_of_ne {α : Type} (p : String × α) (m : List (String × α))
    (k : String) (h : ¬p.1 = k) : lookupKey (p :: m) k = lookupKey m k := by
  have hd : (decide (p.1 = k)) = false := by simp [h]
  simp only [lookupKey, List.find?_cons, hd]

/-- Helper: lookup returns the head entry when its key matches. -/
theorem lookupKey_cons_self {α : Type} (p : String × α) (m : List (String × α))
    (k : String) (h : p.1 = k) : lookupKey (p :: m) k = some p.2 := by
  have hd : (decide (p.1 = k)) = true := by simp [h]
  simp [lookupKey, List.find?_cons, hd]

/-- Helper: after removing a key, looking it up yields none. -/
theorem lookupKey_removeKey_self {α : Type} (m : List (String × α)) (k : String) :
    lookupKey (removeKey m k) k = none := by
  induction m with
  | nil => rfl
  | cons p rest ih =>
    by_cases h : p.1 = k
    · rw [show removeKey (p :: rest) k = removeKey rest k by
        simp [removeKey, List.filter_cons, h]]
      exact ih
    · rw [show removeKey (p :: rest) k = p :: removeKey rest k by
        simp [removeKey, List.filter_cons, h]]
      rw [lookupKey_cons_of_ne _ _ _ h]
      exact ih

/-- C7 counterexample: unregistering a plugin whose cleanup is asynchronous
calls the cleanup but performs no await of its settlement anywhere in the
synchronous body — in particular not before the plugin is removed — while
the plugin does disappear from the manifest map; this refutes the claim that
an asynchronous cleanup is awaited before removal. -/
theorem c7_unregister_cleanup_not_awaited :
    UnregAction.callCleanup "p" CleanupKind.async ∈ (unregister stAsyncCleanup "p").2 ∧
    UnregAction.awaitCleanupSettled "p" ∉ (unregister stAsyncCleanup "p").2 ∧
    lookupKey (unregister stAsyncCleanup "p").1.plugins "p" = none := by
  decide

/-- C7 (corrected): unregister invokes a declared cleanup exactly once,
synchronously and without awaiting it, before the plugin is deleted from the
manifest map, the enabled set and the config map (so before it disappears
from getPlugins); on an unregistered name no cleanup is invoked and
unregister still returns normally. -/
theorem c7_unregister_cleanup_once_before_removal (st : ManagerState) (name : String) :
    (∀ m kind, lookupKey st.plugins name = some m → m.cleanup = some kind →
      (unregister st name).2 =
        [UnregAction.callCleanup name kind, UnregAction.deleteManifest name,
         UnregAction.deleteEnabled name, UnregAction.deleteConfig name,
         UnregAction.emitUnregistered name]) ∧
    lookupKey (unregister st name).1.plugins name = none ∧
    (lookupKey st.plugins name = none →
      (unregister st name).2 =
        [UnregAction.deleteManifest name, UnregAction.deleteEnabled name,
         UnregAction.deleteConfig name, UnregAction.emitUnregistered name]) := by
  refine ⟨?_, ?_, ?_⟩
  · intro m kind hm hk
    simp [unregister, hm, hk]
  · exact lookupKey_removeKey_self st.plugins name
  · intro h
    simp [unregister, h]

/-- C7 witness: the corrected statement applied to the async-cleanup state
(cleanup called once, first, and the plugin gone afterwards) and to the
empty state (no cleanup call, normal return). -/
theorem c7_unregister_cleanup_once_before_removal_witness :
    (unregister stAsyncCleanup "p").2 =
      [UnregAction.callCleanup "p" CleanupKind.async, UnregAction.deleteManifest "p",
       UnregAction.deleteEnabled "p", UnregAction.deleteConfig "p",
       UnregAction.emitUnregistered "p"] ∧
    lookupKey (unregister stAsyncCleanup "p").1.plugins "p" = none ∧
    (unregister emptyManagerState "q").2 =
      [UnregAction.deleteManifest "q", UnregAction.deleteEnabled "q",
       UnregAction.deleteConfig "q", UnregAction.emitUnregistered "q"] :=
  ⟨(c7_unregister_cleanup_once_before_removal stAsyncCleanup "p").1 _ CleanupKind.async
      rfl rfl,
   (c7_unregister_cleanup_once_before_removal stAsyncCleanup "p").2.1,
   (c7_unregister_cleanup_once_before_removal emptyManagerState "q").2.2 rfl⟩

/-! ## Event bus: claim C9 -/

/-- Helper: emit produces one outcome per listener. -/
theorem emitRun_length {α : Type} (data : α) :
    ∀ hs : List (α → Except String Unit), (emitRun data hs).length = hs.length := by
  intro hs
  induction hs with
  | nil => rfl
  | cons h rest ih =>
    simp only [emitRun]
    cases h data <;> simp [ih]

/-- Helper: emit processes a concatenation listener by listener. -/
theorem emitRun_append {α : Type} (data : α) (l1 l2 : List (α → Except String Unit)) :
    emitRun data (l1 ++ l2) = emitRun data l1 ++ emitRun data l2 := by
  induction l1 with
  | nil => rfl
  | cons h rest ih =>
    simp only [List.cons_append, emitRun]
    cases h data <;> simp [ih]

/-- C9 (confirmed): emit invokes every currently registered listener in
registration order — one outcome per listener — and a listener that throws
is caught: its siblings before and after receive exactly the outcomes they
would receive anyway, and emit itself returns normally (it is a total
function into outcome traces). -/
theorem c9_emit_isolation {α : Type} (data : α)
    (pre post : List (α → Except String Unit)) (f : α → Except String Unit) (msg : String)
    (hf : f data = Except.error msg) :
    emitRun data (pre ++ f :: post) =
      emitRun data pre ++ ListenerOutcome.caught msg :: emitRun data post ∧
    (emitRun data (pre ++ f :: post)).length = pre.length + 1 + post.length := by
  have hsplit : emitRun data (pre ++ f :: post) =
      emitRun data pre ++ ListenerOutcome.caught msg :: emitRun data post := by
    rw [emitRun_append]
    simp only [emitRun, hf]
  refine ⟨hsplit, ?_⟩
  rw [hsplit]
  simp [emitRun_length]
  omega

/-- C9 witness: a throwing listener between two successful ones is caught
and both siblings are still invoked. -/
theorem c9_emit_isolation_witness :
    emitRun (0 : Nat) [fun _ => Except.ok (), fun _ => Except.error "boom",
      fun _ => Except.ok ()] =
      [ListenerOutcome.ok, ListenerOutcome.caught "boom", ListenerOutcome.ok] ∧
    (emitRun (0 : Nat) [fun _ => Except.ok (), fun _ => Except.error "boom",
      fun _ => Except.ok ()]).length = 3 :=
  c9_emit_isolation (0 : Nat) [fun _ => Except.ok ()] [fun _ => Except.ok ()]
    (fun _ => Except.error "boom") "boom" rfl

/-! ## Dependency resolution on a cycle: claim C1 -/

/-- Helper: in the cyclic registry, resolving A or B from any accumulator in
which neither is yet marked resolved exhausts every amount of fuel: a name is
marked resolved only after its dependencies are recursively resolved, so the
marking never interrupts the cycle A, B, A, B, ... -/
theorem cyclic_resolve_exhausts_fuel (event : LifecycleEvent) :
    ∀ fuel (acc : ResolveAcc), "A" ∉ acc.resolved → "B" ∉ acc.resolved →
      resolveFuel cyclicReg event fuel "A" acc = none ∧
      resolveFuel cyclicReg event fuel "B" acc = none := by
  have hlookA : lookupKey cyclicReg "A" = some metaDependsOnB := rfl
  have hlookB : lookupKey cyclicReg "B" = some metaDependsOnA := rfl
  intro fuel
  induction fuel with
  | zero =>
    intro acc hA hB
    constructor <;> simp [resolveFuel]
  | succ n ih =>
    intro acc hA hB
    constructor
    · have hrec := (ih acc hA hB).2
      nth_rewrite 1 [resolveFuel.eq_def]
      simp [hA, hlookA, hrec, resolveDepsFuel, metaDependsOnB]
    · have hrec := (ih acc hA hB).1
      nth_rewrite 1 [resolveFuel.eq_def]
      simp [hB, hlookB, hrec, resolveDepsFuel, metaDependsOnA]

/-- C1 (code bug): with the cyclic registry (A depends on B, B depends on A),
dependency resolution exhausts every amount of fuel — the recursion never
terminates. The visited-set marking (resolved.add) happens only after a
plugin's dependencies have been recursively resolved (runtime.ts line 173),
so on a cycle it is never reached and resolve(A) recurses A, B, A, B, ...
without bound (in JS, until the call stack overflows), rather than
terminating by silent truncation as the claim states. -/
theorem c1_cycle_resolution_diverges (fuel : Nat) :
    getPluginsForEventFuel cyclicReg LifecycleEvent.ready fuel = none := by
  have h := (cyclic_resolve_exhausts_fuel LifecycleEvent.ready fuel
    { out := [], resolved := [] } (by simp) (by simp)).1
  simp only [getPluginsForEventFuel, cyclicReg, List.map_cons, List.map_nil]
  simp only [cyclicReg] at h
  simp [resolveDepsFuel, h]

/-! ## Map.set lemmas -/

/-- Helper: looking up k after replacing every k-entry finds the new value
iff some entry had key k. -/
theorem lookupKey_replace {α : Type} (k : String) (v : α) :
    ∀ m : List (String × α),
      lookupKey (m.map (fun p => if p.1 = k then (k, v) else p)) k =
        if m.any (fun p => decide (p.1 = k)) then some v else none := by
  intro m
  induction m with
  | nil => simp [lookupKey]
  | cons p rest ih =>
    rw [List.map_cons, List.any_cons]
    by_cases hp : p.1 = k
    · rw [if_pos hp, lookupKey_cons_self _ _ _ rfl]
      simp [hp]
    · rw [if_neg hp, lookupKey_cons_of_ne _ _ _ hp, ih]
      have hd : (decide (p.1 = k)) = false := by simp [hp]
      rw [hd, Bool.false_or]

/-- Helper: looking up k in m with a (k, v) entry appended, when m has no
k-entry, finds v. -/
theorem lookupKey_append_single {α : Type} (k : String) (v : α) :
    ∀ m : List (String × α), m.any (fun p => decide (p.1 = k)) = false →
      lookupKey (m ++ [(k, v)]) k = some v := by
  intro m
  induction m with
  | nil => intro _; rw [List.nil_append, lookupKey_cons_self _ _ _ rfl]
  | cons p rest ih =>
    intro h
    rw [List.any_cons, Bool.or_eq_false_iff] at h
    have hp : ¬(p.1 = k) := by simpa using h.1
    rw [List.cons_append, lookupKey_cons_of_ne _ _ _ hp]
    exact ih h.2

/-- Helper: Map.set then lookup of the same key yields the new value. -/
theorem lookupKey_mapSet_self {α : Type} (m : List (String × α)) (k : String) (v : α) :
    lookupKey (mapSet m k v) k = some v := by
  unfold mapSet
  rcases Bool.eq_false_or_eq_true (m.any (fun p => decide (p.1 = k))) with h | h
  · rw [if_pos h, lookupKey_replace, if_pos h]
  · rw [if_neg (by simp [h]), lookupKey_append_single k v m h]

/-- Helper: replacing k-entries does not change the lookup of another key. -/
theorem lookupKey_replace_ne {α : Type} (k k2 : String) (v : α) (hne : k2 ≠ k) :
    ∀ m : List (String × α),
      lookupKey (m.map (fun p => if p.1 = k then (k, v) else p)) k2 = lookupKey m k2 := by
  intro m
  induction m with
  | nil => rfl
  | cons p rest ih =>
    rw [List.map_cons]
    by_cases hp : p.1 = k
    · have hp2 : ¬(p.1 = k2) := by rw [hp]; exact fun h => hne h.symm
      rw [if_pos hp, lookupKey_cons_of_ne _ _ _ (Ne.symm hne),
        lookupKey_cons_of_ne _ _ _ hp2]
      exact ih
    · by_cases hp2 : p.1 = k2
      · rw [if_neg hp, lookupKey_cons_self _ _ _ hp2, lookupKey_cons_self _ _ _ hp2]
      · rw [if_neg hp, lookupKey_cons_of_ne _ _ _ hp2, lookupKey_cons_of_ne _ _ _ hp2]
        exact ih

/-- Helper: appending a (k, v) entry does not change the lookup of another
key. -/
theorem lookupKey_append_single_ne {α : Type} (k k2 : String) (v : α) (hne : k2 ≠ k) :
    ∀ m : List (String × α), lookupKey (m ++ [(k, v)]) k2 = lookupKey m k2 := by
  intro m
  induction m with
  | nil =>
    rw [List.nil_append, lookupKey_cons_of_ne _ _ _ (Ne.symm hne)]
  | cons p rest ih =>
    rw [List.cons_append]
    by_cases hp2 : p.1 = k2
    · rw [lookupKey_cons_self _ _ _ hp2, lookupKey_cons_self _ _ _ hp2]
    · rw [lookupKey_cons_of_ne _ _ _ hp2, lookupKey_cons_of_ne _ _ _ hp2]
      exact ih

/-- Helper: Map.set does not change the lookup of another key. -/
theorem lookupKey_mapSet_ne {α : Type} (m : List (String × α)) (k k2 : String) (v : α)
    (hne : k2 ≠ k) : lookupKey (mapSet m k v) k2 = lookupKey m k2 := by
  unfold mapSet
  rcases Bool.eq_false_or_eq_true (m.any (fun p => decide (p.1 = k))) with h | h
  · rw [if_pos h, lookupKey_replace_ne k k2 v hne]
  · rw [if_neg (by simp [h]), lookupKey_append_single_ne k k2 v hne]

/-! ## Dispatch-loop lemmas -/

/-- Helper: dispatching a concatenation runs the first part and continues
with the second from the resulting state, results and events. -/
theorem dispatchLoop_append (env : String → HandlerFn) (event : LifecycleEvent) :
    ∀ (A B : List (String × PluginMeta)) st res evts,
      dispatchLoop env event (A ++ B) st res evts =
        dispatchLoop env event B (dispatchLoop env event A st res evts).1
          (dispatchLoop env event A st res evts).2.1
          (dispatchLoop env event A st res evts).2.2 := by
  intro A
  induction A with
  | nil => intro B st res evts; rfl
  | cons pm A2 ih =>
    intro B st res evts
    obtain ⟨name, meta⟩ := pm
    by_cases h : name ∈ st.enabled
    · cases hr : (env name event st).2 with
      | ok r =>
        simp only [List.cons_append, dispatchLoop, if_pos h, hr]
        exact ih B _ _ _
      | error msg =>
        simp only [List.cons_append, dispatchLoop, if_pos h, hr]
        exact ih B _ _ _
    · simp only [List.cons_append, dispatchLoop, if_neg h]
      exact ih B st res evts

/-- Helper: the dispatch loop only appends events, and every appended event
concerns a plugin name of the dispatched list. -/
theorem dispatchLoop_events (env : String → HandlerFn) (event : LifecycleEvent) :
    ∀ (L : List (String × PluginMeta)) st res evts,
      ∃ delta, (dispatchLoop env event L st res evts).2.2 = evts ++ delta ∧
        ∀ be ∈ delta, busEventName be ∈ L.map Prod.fst := by
  intro L
  induction L with
  | nil =>
    intro st res evts
    exact ⟨[], by simp [dispatchLoop], by simp⟩
  | cons pm L2 ih =>
    intro st res evts
    obtain ⟨name, meta⟩ := pm
    by_cases h : name ∈ st.enabled
    · cases hr : (env name event st).2 with
      | ok r =>
        obtain ⟨delta, h1, h2⟩ := ih (env name event st).1 (mapSet res name r)
          (evts ++ [BusEvent.pluginStarted name event, BusEvent.pluginCompleted name r])
        refine ⟨[BusEvent.pluginStarted name event, BusEvent.pluginCompleted name r] ++ delta,
          ?_, ?_⟩
        · simp only [dispatchLoop, if_pos h, hr]
          rw [h1, List.append_assoc]
        · intro be hbe
          rcases List.mem_append.mp hbe with hbe | hbe
          · simp only [List.mem_cons, List.not_mem_nil, or_false] at hbe
            rcases hbe with hbe | hbe <;> rw [hbe] <;> simp [busEventName]
          · exact List.mem_cons_of_mem _ (h2 be hbe)
      | error msg =>
        obtain ⟨delta, h1, h2⟩ := ih (env name event st).1
          (mapSet res name { success := false, error := some msg })
          (evts ++ [BusEvent.pluginStarted name event, BusEvent.pluginError name msg])
        refine ⟨[BusEvent.pluginStarted name event, BusEvent.pluginError name msg] ++ delta,
          ?_, ?_⟩
        · simp only [dispatchLoop, if_pos h, hr]
          rw [h1, List.append_assoc]
        · intro be hbe
          rcases List.mem_append.mp hbe with hbe | hbe
          · simp only [List.mem_cons, List.not_mem_nil, or_false] at hbe
            rcases hbe with hbe | hbe <;> rw [hbe] <;> simp [busEventName]
          · exact List.mem_cons_of_mem _ (h2 be hbe)
    · obtain ⟨delta, h1, h2⟩ := ih st res evts
      refine ⟨delta, ?_, fun be hbe => List.mem_cons_of_mem _ (h2 be hbe)⟩
      simp only [dispatchLoop, if_neg h]
      exact h1

/-- Helper: dispatching a list never writes a result for a name outside the
list. -/
theorem dispatchLoop_results_notin (env : String → HandlerFn) (event : LifecycleEvent) :
    ∀ (L : List (String × PluginMeta)) st res evts (k : String), k ∉ L.map Prod.fst →
      lookupKey (dispatchLoop env event L st res evts).2.1 k = lookupKey res k := by
  intro L
  induction L with
  | nil => intro st res evts k _; rfl
  | cons pm L2 ih =>
    intro st res evts k hk
    obtain ⟨name, meta⟩ := pm
    rw [List.map_cons, List.mem_cons, not_or] at hk
    by_cases h : name ∈ st.enabled
    · cases hr : (env name event st).2 with
      | ok r =>
        simp only [dispatchLoop, if_pos h, hr]
        rw [ih _ _ _ k hk.2, lookupKey_mapSet_ne _ _ _ _ hk.1]
      | error msg =>
        simp only [dispatchLoop, if_pos h, hr]
        rw [ih _ _ _ k hk.2, lookupKey_mapSet_ne _ _ _ _ hk.1]
    · simp only [dispatchLoop, if_neg h]
      exact ih st res evts k hk.2

/-! ## Fault isolation: claim C2 -/

/-- C2 (confirmed): suppose dependency resolution yields the run list
L1 ++ pm :: L2 with pm occurring only there, dispatching L1 from the initial
state produces (s1, res1, evts1), pm is enabled at its turn, and pm's handler
throws Error msg. Then runEvent still returns (no exception escapes): its
output is exactly the normal dispatch of the remaining list L2 continued from
the post-failure state, with the synthesized failure result recorded for pm —
so every subsequent plugin is dispatched exactly as usual — and in the final
output pm's entry is the failure result and exactly one plugin:error bus
event for pm with that message was published. -/
theorem c2_runEvent_fault_isolation (env : String → HandlerFn) (event : LifecycleEvent)
    (st : RegState) (fuel : Nat) (L1 L2 : List (String × PluginMeta))
    (pm : String × PluginMeta) (msg : String)
    (s1 : RegState) (res1 : List (String × PluginResult)) (evts1 : List BusEvent)
    (hrun : getPluginsForEventFuel st.plugins event fuel = some (L1 ++ pm :: L2))
    (honce : pm.1 ∉ (L1 ++ L2).map Prod.fst)
    (hpre : dispatchLoop env event L1 st [] [] = (s1, res1, evts1))
    (henabled : pm.1 ∈ s1.enabled)
    (hthrow : (env pm.1 event s1).2 = Except.error msg) :
    runEventFuel env event st fuel =
      some (dispatchLoop env event L2 (env pm.1 event s1).1
        (mapSet res1 pm.1 { success := false, error := some msg })
        (evts1 ++ [BusEvent.pluginStarted pm.1 event, BusEvent.pluginError pm.1 msg])) ∧
    lookupKey (dispatchLoop env event L2 (env pm.1 event s1).1
        (mapSet res1 pm.1 { success := false, error := some msg })
        (evts1 ++ [BusEvent.pluginStarted pm.1 event, BusEvent.pluginError pm.1 msg])).2.1
        pm.1 =
      some { success := false, error := some msg } ∧
    ((dispatchLoop env event L2 (env pm.1 event s1).1
        (mapSet res1 pm.1 { success := false, error := some msg })
        (evts1 ++ [BusEvent.pluginStarted pm.1 event, BusEvent.pluginError pm.1 msg])).2.2.filter
        (fun be => decide (be = BusEvent.pluginError pm.1 msg))).length = 1 := by
  rw [List.map_append, List.mem_append, not_or] at honce
  obtain ⟨h1, h2⟩ := honce
  refine ⟨?_, ?_, ?_⟩
  · simp only [runEventFuel, hrun]
    congr 1
    rw [dispatchLoop_append env event L1 (pm :: L2) st [] [], hpre]
    obtain ⟨name, meta⟩ := pm
    simp only [dispatchLoop, if_pos henabled, hthrow]
  · rw [dispatchLoop_results_notin env event L2 _ _ _ _ h2, lookupKey_mapSet_self]
  · obtain ⟨delta2, he2, hn2⟩ := dispatchLoop_events env event L2 (env pm.1 event s1).1
      (mapSet res1 pm.1 { success := false, error := some msg })
      (evts1 ++ [BusEvent.pluginStarted pm.1 event, BusEvent.pluginError pm.1 msg])
    obtain ⟨delta1, he1, hn1⟩ := dispatchLoop_events env event L1 st [] []
    have hevts1 : evts1 = delta1 := by
      have := congrArg (fun t => t.2.2) hpre
      simp only at this
      rw [he1] at this
      simpa using this.symm
    rw [he2]
    have hfilter1 : evts1.filter (fun be => decide (be = BusEvent.pluginError pm.1 msg)) = [] := by
      rw [List.filter_eq_nil_iff]
      intro be hbe
      simp only [decide_eq_true_eq]
      intro heq
      apply h1
      have := hn1 be (hevts1 ▸ hbe)
      rwa [heq, busEventName] at this
    have hfilter2 : delta2.filter (fun be => decide (be = BusEvent.pluginError pm.1 msg)) = [] := by
      rw [List.filter_eq_nil_iff]
      intro be hbe
      simp only [decide_eq_true_eq]
      intro heq
      apply h2
      have := hn2 be hbe
      rwa [heq, busEventName] at this
    rw [List.filter_append, List.filter_append, hfilter1, hfilter2]
    simp

/-- C2 witness: with P1 and P2 registered and enabled and P1's handler
throwing Error X, runEvent records the failure for P1, publishes exactly one
plugin:error for it, and still dispatches P2 normally. -/
theorem c2_runEvent_fault_isolation_witness :
    runEventFuel envThrowP1 LifecycleEvent.ready stTwoEnabled 3 =
      some (dispatchLoop envThrowP1 LifecycleEvent.ready [("P2", metaReadyNoDeps)]
        (envThrowP1 "P1" LifecycleEvent.ready stTwoEnabled).1
        (mapSet [] "P1" { success := false, error := some "X" })
        ([] ++ [BusEvent.pluginStarted "P1" LifecycleEvent.ready,
          BusEvent.pluginError "P1" "X"])) ∧
    lookupKey (dispatchLoop envThrowP1 LifecycleEvent.ready [("P2", metaReadyNoDeps)]
        (envThrowP1 "P1" LifecycleEvent.ready stTwoEnabled).1
        (mapSet [] "P1" { success := false, error := some "X" })
        ([] ++ [BusEvent.pluginStarted "P1" LifecycleEvent.ready,
          BusEvent.pluginError "P1" "X"])).2.1 "P1" =
      some { success := false, error := some "X" } ∧
    ((dispatchLoop envThrowP1 LifecycleEvent.ready [("P2", metaReadyNoDeps)]
        (envThrowP1 "P1" LifecycleEvent.ready stTwoEnabled).1
        (mapSet [] "P1" { success := false, error := some "X" })
        ([] ++ [BusEvent.pluginStarted "P1" LifecycleEvent.ready,
          BusEvent.pluginError "P1" "X"])).2.2.filter
        (fun be => decide (be = BusEvent.pluginError "P1" "X"))).length = 1 :=
  c2_runEvent_fault_isolation envThrowP1 LifecycleEvent.ready stTwoEnabled 3
    [] [("P2", metaReadyNoDeps)] ("P1", metaReadyNoDeps) "X" stTwoEnabled [] []
    (by simp [getPluginsForEventFuel, resolveDepsFuel, resolveFuel, regTwoPlugins,
      stTwoEnabled, lookupKey, metaReadyNoDeps])
    (by decide) rfl (by decide) rfl

/-! ## Mid-flight mutation: claim C8 -/

/-- C8 counterexample: with P1 and P2 both registered, enabled and in the
run list computed at the start of dispatch, a handler that disables P2
mid-event (as disable does, deleting it from the live enabled set) makes the
in-progress runEvent skip P2: P2 gets no result and no plugin:started event,
refuting the claim that mutations during an in-flight dispatch never affect
the event already in progress. -/
theorem c8_midflight_disable_affects_current_event :
    "P2" ∈ stTwoEnabled.enabled ∧
    getPluginsForEventFuel stTwoEnabled.plugins LifecycleEvent.ready 3 =
      some [("P1", metaReadyNoDeps), ("P2", metaReadyNoDeps)] ∧
    runEventFuel envDisableP2 LifecycleEvent.ready stTwoEnabled 3 =
      some ({ plugins := regTwoPlugins, enabled := ["P1"] },
        [("P1", okResult)],
        [BusEvent.pluginStarted "P1" LifecycleEvent.ready,
         BusEvent.pluginCompleted "P1" okResult]) ∧
    lookupKey ([("P1", okResult)] : List (String × PluginResult)) "P2" = none := by
  have hres : getPluginsForEventFuel stTwoEnabled.plugins LifecycleEvent.ready 3 =
      some [("P1", metaReadyNoDeps), ("P2", metaReadyNoDeps)] := by
    simp [getPluginsForEventFuel, resolveDepsFuel, resolveFuel, regTwoPlugins,
      stTwoEnabled, lookupKey, metaReadyNoDeps]
  refine ⟨by decide, hres, ?_, by decide⟩
  simp only [runEventFuel, hres]
  decide

/-- C8 (corrected): the ordered run list is computed exactly once, at the
start of dispatch, so a plugin whose name is not in that list — in
particular one registered only mid-event by a handler — is never invoked for
the in-progress event: it gets no result entry and no bus event. (The
counterexample shows the rest of the original claim fails: enablement is
re-checked against live state before each handler, so a mid-flight disable
or unregister of a not-yet-dispatched plugin does remove it from the event
in progress.) -/
theorem c8_run_list_computed_once (env : String → HandlerFn) (event : LifecycleEvent)
    (st : RegState) (fuel : Nat) (toRun : List (String × PluginMeta)) (q : String)
    (hres : getPluginsForEventFuel st.plugins event fuel = some toRun)
    (hq : q ∉ toRun.map Prod.fst) :
    runEventFuel env event st fuel = some (dispatchLoop env event toRun st [] []) ∧
    lookupKey (dispatchLoop env event toRun st [] []).2.1 q = none ∧
    (dispatchLoop env event toRun st [] []).2.2.filter
      (fun be => decide (busEventName be = q)) = [] := by
  refine ⟨by simp only [runEventFuel, hres], ?_, ?_⟩
  · rw [dispatchLoop_results_notin env event toRun st [] [] q hq]; rfl
  · obtain ⟨delta, he, hn⟩ := dispatchLoop_events env event toRun st [] []
    rw [he, List.nil_append, List.filter_eq_nil_iff]
    intro be hbe
    simp only [decide_eq_true_eq]
    intro heq
    exact hq (heq ▸ hn be hbe)

/-- C8 witness: P1's handler registers a new enabled plugin Q subscribed to
the same event; Q is absent from the run list computed at dispatch start and
therefore receives no result and no bus event during the in-progress
dispatch. -/
theorem c8_run_list_computed_once_witness :
    runEventFuel envRegisterQ LifecycleEvent.ready stTwoEnabled 3 =
      some (dispatchLoop envRegisterQ LifecycleEvent.ready
        [("P1", metaReadyNoDeps), ("P2", metaReadyNoDeps)] stTwoEnabled [] []) ∧
    lookupKey (dispatchLoop envRegisterQ LifecycleEvent.ready
        [("P1", metaReadyNoDeps), ("P2", metaReadyNoDeps)] stTwoEnabled [] []).2.1 "Q" =
      none ∧
    (dispatchLoop envRegisterQ LifecycleEvent.ready
        [("P1", metaReadyNoDeps), ("P2", metaReadyNoDeps)] stTwoEnabled [] []).2.2.filter
      (fun be => decide (busEventName be = "Q")) = [] :=
  c8_run_list_computed_once envRegisterQ LifecycleEvent.ready stTwoEnabled 3
    [("P1", metaReadyNoDeps), ("P2", metaReadyNoDeps)] "Q"
    (by simp [getPluginsForEventFuel, resolveDepsFuel, resolveFuel, regTwoPlugins,
      stTwoEnabled, lookupKey, metaReadyNoDeps])
    (by decide)

/-! ## Scattered blocks: the amended claim C4 -/

theorem absQ_sub_comm (a b : ℚ) : absQ (a - b) = absQ (b - a) := by
  rw [absQ_eq_abs, absQ_eq_abs, abs_sub_comm]

/-- Helper: inserting by key is a permutation of consing. -/
theorem insertByKey_perm {α : Type} (key : α → ℚ) (x : α) :
    ∀ l : List α, (insertByKey key x l).Perm (x :: l) := by
  intro l
  induction l with
  | nil => exact List.Perm.refl _
  | cons y ys ih =>
    rw [insertByKey]
    by_cases h : key x ≤ key y
    · rw [if_pos h]
    · rw [if_neg h]
      exact (ih.cons y).trans (List.Perm.swap x y ys)

/-- Helper: the stable sort is a permutation of its input. -/
theorem sortByKey_perm {α : Type} (key : α → ℚ) :
    ∀ l : List α, (sortByKey key l).Perm l := by
  intro l
  induction l with
  | nil => exact List.Perm.refl _
  | cons a l ih =>
    exact (insertByKey_perm key a (sortByKey key l)).trans (ih.cons a)

/-- Helper: the running-mean of a one-block row is the block's y-center. -/
theorem yCenterMean_single (b : ClusterBlock) : yCenterMean [b] = b.yCenter := by
  simp [yCenterMean]

/-- Helper: when every remaining block is farther than the tolerance from the
current single block — and the remaining blocks are pairwise separated — the
row-clustering loop emits only singleton rows. -/
theorem clusterIntoRowsAux_all_separated (tol : ℚ) :
    ∀ (rest : List ClusterBlock) (b : ClusterBlock) (yc : ℚ),
      (∀ c ∈ rest, tol < absQ (c.yCenter - b.yCenter)) →
      List.Pairwise (fun u v => tol < absQ (v.yCenter - u.yCenter)) rest →
      clusterIntoRowsAux tol rest { yCenter := yc, blocks := [b] } =
        { yCenter := b.yCenter, blocks := [b] } :: singletonRows rest := by
  intro rest
  induction rest with
  | nil =>
    intro b yc _ _
    simp [clusterIntoRowsAux, yCenterMean_single, singletonRows]
  | cons c rest2 ih =>
    intro b yc hsep hpw
    have hc : ¬(absQ (c.yCenter - yCenterMean [b]) ≤ tol) := by
      rw [yCenterMean_single]
      exact not_le.mpr (hsep c (List.mem_cons_self c rest2))
    rcases List.pairwise_cons.mp hpw with ⟨hhead, htail⟩
    simp only [clusterIntoRowsAux]
    rw [if_neg hc, yCenterMean_single, ih c c.yCenter hhead htail]
    simp [singletonRows]

/-- Helper: on pairwise vertically separated blocks, clusterIntoRows yields
one singleton row per block (in sorted order); in particular the row count
equals the block count, it does not fall below minRows. -/
theorem clusterIntoRows_separated (blocks : List ClusterBlock) (tol : ℚ)
    (h : List.Pairwise (fun u v => tol < absQ (v.yCenter - u.yCenter)) blocks) :
    clusterIntoRows blocks tol = singletonRows (sortByKey (fun b => b.yCenter) blocks) := by
  have hsorted := ((sortByKey_perm (fun b : ClusterBlock => b.yCenter) blocks).pairwise_iff
    (fun {u v} huv => by rw [absQ_sub_comm]; exact huv)).mpr h
  unfold clusterIntoRows
  cases hs : sortByKey (fun b : ClusterBlock => b.yCenter) blocks with
  | nil => simp [singletonRows]
  | cons b rest =>
    rw [hs] at hsorted
    rcases List.pairwise_cons.mp hsorted with ⟨hb, hrest⟩
    show clusterIntoRowsAux tol rest { yCenter := b.yCenter, blocks := [b] } =
      singletonRows (b :: rest)
    rw [clusterIntoRowsAux_all_separated tol rest b b.yCenter hb hrest]
    simp [singletonRows]

/-- Helper: the merge loop finds no cluster when the item is farther than the
tolerance from every cluster center. -/
theorem mergeIntoClusters_none (tol x : ℚ) (r : Nat) :
    ∀ cs : List ColumnCluster, (∀ c ∈ cs, ¬(absQ (x - c.xCenter) ≤ tol)) →
      mergeIntoClusters tol x r cs = none := by
  intro cs
  induction cs with
  | nil => intro _; rfl
  | cons c cs2 ih =>
    intro h
    simp only [mergeIntoClusters]
    rw [if_neg (h c (List.mem_cons_self c cs2)), ih (fun d hd => h d (List.mem_cons_of_mem c hd))]

/-- Helper: folding pairwise-separated x-items (each also separated from all
previously seen centers) into singleton clusters produces only singleton
clusters: no merge ever fires, so every rowSet stays of size one. -/
theorem foldl_addXCenter_singletons (tol : ℚ) :
    ∀ (items : List (ℚ × Nat)) (cs : List ColumnCluster) (S : List ℚ),
      (∀ c ∈ cs, c.rowSet.length = 1 ∧ c.xCenter ∈ S) →
      (∀ it ∈ items, ∀ s ∈ S, tol < absQ (it.1 - s)) →
      List.Pairwise (fun u v : ℚ × Nat => tol < absQ (v.1 - u.1)) items →
      ∀ c ∈ items.foldl (addXCenter tol) cs, c.rowSet.length = 1 := by
  intro items
  induction items with
  | nil =>
    intro cs S hinv _ _ c hc
    exact (hinv c hc).1
  | cons it rest ih =>
    intro cs S hinv hS hpw
    have hnone : mergeIntoClusters tol it.1 it.2 cs = none := by
      apply mergeIntoClusters_none
      intro c hc
      exact not_le.mpr (hS it (List.mem_cons_self it rest) c.xCenter (hinv c hc).2)
    rcases List.pairwise_cons.mp hpw with ⟨hhead, htail⟩
    rw [List.foldl_cons]
    rw [show addXCenter tol cs it = cs ++ [{ xCenter := it.1, rowSet := [it.2] }] by
      simp [addXCenter, hnone]]
    refine ih (cs ++ [{ xCenter := it.1, rowSet := [it.2] }]) (S ++ [it.1]) ?_ ?_ ?_
    · intro c hc
      rcases List.mem_append.mp hc with hc | hc
      · exact ⟨(hinv c hc).1, List.mem_append_left _ (hinv c hc).2⟩
      · rcases List.mem_singleton.mp hc with rfl
        exact ⟨rfl, List.mem_append_right _ (List.mem_singleton_self _)⟩
    · intro jt hjt s hs
      rcases List.mem_append.mp hs with hs | hs
      · exact hS jt (List.mem_cons_of_mem it hjt) s hs
      · rcases List.mem_singleton.mp hs with rfl
        exact hhead jt hjt
    · exact htail

/-- Helper: the x-items harvested from singleton rows are the blocks'
x-centers, one per row index. -/
theorem allXCentersFrom_singleton_map_fst :
    ∀ (l : List ClusterBlock) (i : Nat),
      (allXCentersFrom i (singletonRows l)).map Prod.fst = l.map (fun b => b.xCenter) := by
  intro l
  induction l with
  | nil => intro i; rfl
  | cons b rest ih =>
    intro i
    simp only [singletonRows, List.map_cons] at ih ⊢
    simp [allXCentersFrom, ih]

/-- Helper: on singleton rows built from horizontally pairwise separated
blocks, every column cluster keeps a single-row rowSet. -/
theorem buildColumnClusters_singletons (l : List ClusterBlock) (tol : ℚ)
    (hx : List.Pairwise (fun u v => tol < absQ (v.xCenter - u.xCenter)) l) :
    ∀ c ∈ buildColumnClusters (singletonRows l) tol, c.rowSet.length = 1 := by
  have hmapped : List.Pairwise (fun a b : ℚ => tol < absQ (b - a))
      ((allXCenters (singletonRows l)).map Prod.fst) := by
    rw [allXCenters, allXCentersFrom_singleton_map_fst l 0]
    exact List.pairwise_map.mpr hx
  have hitems : List.Pairwise (fun u v : ℚ × Nat => tol < absQ (v.1 - u.1))
      (allXCenters (singletonRows l)) := List.pairwise_map.mp hmapped
  have hsorted := ((sortByKey_perm (fun it : ℚ × Nat => it.1)
    (allXCenters (singletonRows l))).pairwise_iff
    (fun {u v} huv => by rw [absQ_sub_comm]; exact huv)).mpr hitems
  intro c hc
  exact foldl_addXCenter_singletons tol _ [] [] (by simp) (by simp) hsorted c hc

/-- Helper: when every column cluster is supported by a single row and
minRows is at least 2, detectColumns reports no columns. -/
theorem detectColumns_of_singletons (rows : List RowCluster) (tol : ℚ) (minRows : Nat)
    (h2 : 2 ≤ minRows)
    (hsing : ∀ c ∈ buildColumnClusters rows tol, c.rowSet.length = 1) :
    detectColumns rows tol minRows = [] := by
  unfold detectColumns
  by_cases hlen : rows.length < minRows
  · rw [if_pos hlen]
  · rw [if_neg hlen]
    by_cases hemp : (allXCenters rows).length = 0
    · rw [if_pos hemp]
    · rw [if_neg hemp]
      rw [show (buildColumnClusters rows tol).filter
          (fun c => decide (minRows ≤ c.rowSet.length)) = [] from
        List.filter_eq_nil_iff.mpr (fun c hc => by simp [hsing c hc]; omega)]
      rfl

/-- C4 (corrected): when no two of the blocks' vertical centers lie within
rowTolerance of each other, every row cluster is a singleton, so the row
count equals the block count and does reach minRows — the claim's reason
fails, and (per the counterexample) a table can be reported. Zero tables are
guaranteed once, additionally, no two horizontal centers lie within
columnTolerance of each other: then every column cluster is supported by a
single row, no column survives the minRows filter, and the column count
never reaches minColumns. -/
theorem c4_scattered_blocks_no_table (blocks : List ClusterBlock) (page now : Nat)
    (cfg : DetectorConfig) (h2r : 2 ≤ cfg.minRows) (h1c : 1 ≤ cfg.minColumns)
    (hy : List.Pairwise
      (fun u v => cfg.rowTolerance < absQ (v.yCenter - u.yCenter)) blocks)
    (hx : List.Pairwise
      (fun u v => cfg.columnTolerance < absQ (v.xCenter - u.xCenter)) blocks) :
    detectTablesOnPage blocks page cfg now = [] := by
  have hxsorted := ((sortByKey_perm (fun b : ClusterBlock => b.yCenter)
    blocks).pairwise_iff (fun {u v} huv => by rw [absQ_sub_comm]; exact huv)).mpr hx
  have hrows := clusterIntoRows_separated blocks cfg.rowTolerance hy
  have hcols : detectColumns (clusterIntoRows blocks cfg.rowTolerance)
      cfg.columnTolerance cfg.minRows = [] := by
    rw [hrows]
    exact detectColumns_of_singletons _ _ _ h2r
      (buildColumnClusters_singletons _ _ hxsorted)
  simp only [detectTablesOnPage]
  by_cases h1 : blocks.length < cfg.minRows * cfg.minColumns
  · rw [if_pos h1]
  · rw [if_neg h1]
    by_cases h2 : (clusterIntoRows blocks cfg.rowTolerance).length < cfg.minRows
    · rw [if_pos h2]
    · rw [if_neg h2, hcols]
      rw [if_pos (by simpa using h1c)]

/-- C4 witness: four uniform blocks with centers (0,0), (100,100), (200,200),
(300,300) — pairwise separated beyond both tolerances — yield zero tables
under the default configuration. -/
theorem c4_scattered_blocks_no_table_witness :
    detectTablesOnPage blocksScatteredXY 1 cfgDefault 0 = [] :=
  c4_scattered_blocks_no_table blocksScatteredXY 1 0 cfgDefault
    (by decide) (by decide)
    (by with_unfolding_all decide) (by with_unfolding_all decide)

end VdomPlugins
